import Mathlib

/-!
Verification of `src/LocalTimeGroupBot.py` (seregatipich/squad_automation).

The Python module is embedded shallowly:

* JSON values read from the configuration file are modelled by the
  inductive type `Json`; Python `dict` access and iteration are modelled
  by `lookupKey` and `pyIter`.
* `TeamMember` is a record of three `Json` fields, because the Python
  dataclass performs no runtime type checking on its fields.
* The pytz timezone database is an explicit parameter
  `db : String → Option Int` giving, for each recognized identifier,
  the zone's current UTC offset in minutes (DST already applied, since
  the code always asks about "now").
* System time is an explicit parameter `now : Int`, minutes since the
  epoch in UTC.
* A Python function that may raise an uncaught exception is modelled as
  returning `Option` (`none` = an exception propagates to the caller);
  log emissions are returned alongside results as `List String`.
-/

/-- JSON values, as produced by `json.load`. -/
inductive Json where
  | null : Json
  | bool : Bool → Json
  | num : Int → Json
  | str : String → Json
  | arr : List Json → Json
  | obj : List (String × Json) → Json

/-- Python `str()` of an atom, used by `str.format` interpolation. -/
def Json.pyStr : Json → String
  | .null => "None"
  | .bool true => "True"
  | .bool false => "False"
  | .num n => toString n
  | .str s => s
  | .arr _ => "<list>"
  | .obj _ => "<dict>"

/-- `d[k]` on a Python dict (`none` = `KeyError`); on the assoc-list
model of a parsed JSON object. -/
def lookupKey (k : String) : List (String × Json) → Option Json
  | [] => none
  | (k', v) :: rest => if k' = k then some v else lookupKey k rest

/-- Python `for x in v`: iterating a list yields its elements, a string
its one-character substrings, a dict its keys; any other value raises
`TypeError` (`none`). -/
def pyIter : Json → Option (List Json)
  | .arr xs => some xs
  | .str s => some (s.toList.map fun c => .str (String.singleton c))
  | .obj kvs => some (kvs.map fun kv => .str kv.1)
  | _ => none

/-- `TeamMember` dataclass: the annotations say `str`, but Python does
not enforce them, so the fields hold arbitrary JSON values. -/
structure TeamMember where
  name : Json
  city : Json
  timezone : Json

/-- `BotConfig.MESSAGE_FORMAT.format(name=..., city=..., local_time=...)`:
the template is `"{name}: {local_time}\n"`, so `city` is accepted but
never rendered. -/
def MESSAGE_FORMAT (name city local_time : String) : String :=
  name ++ ": " ++ local_time ++ "\n"

/-- `BotConfig.MESSAGE_HEADER`. -/
def MESSAGE_HEADER : String := ""

/-- `BotConfig.ERROR_MESSAGE`. -/
def ERROR_MESSAGE : String :=
  "Sorry, an error occurred while processing your request."

/-- Zero-padding of `strftime` numeric fields. -/
def pad2 (n : Nat) : String :=
  if n < 10 then "0" ++ toString n else toString n

/-- `datetime.now(tz).strftime("%H:%M")` where `tz` has UTC offset
`off` minutes and the current UTC instant is `now` minutes since the
epoch: the wall-clock minutes of day are `(now + off) mod 1440`. -/
def strftimeHM (now off : Int) : String :=
  pad2 ((((now + off) % 1440).toNat) / 60) ++ ":" ++
    pad2 ((((now + off) % 1440).toNat) % 60)

/-- `TeamMember.get_local_time`.  If the timezone field is a string it
is looked up in the database: a hit renders the current time, a miss is
`pytz.exceptions.UnknownTimeZoneError`, caught and replaced with the
fallback string plus an error log.  A non-string field makes
`pytz.timezone` raise some other exception, which the `except` clause
does not catch (`none`). -/
def TeamMember.get_local_time (m : TeamMember) (db : String → Option Int)
    (now : Int) : Option (String × List String) :=
  match m.timezone with
  | .str s =>
    match db s with
    | some off => some (strftimeHM now off, [])
    | none => some ("Unknown timezone", ["Unknown timezone: " ++ s])
  | _ => none

/-- Decidable check that a string has the exact shape `HH:MM`: five
characters, digits around a colon, hour below 24, minute below 60. -/
def isHHMM (s : String) : Bool :=
  match s.toList with
  | [h1, h2, c, m1, m2] =>
    h1.isDigit && h2.isDigit && c == ':' && m1.isDigit && m2.isDigit &&
      decide (10 * (h1.toNat - 48) + (h2.toNat - 48) < 24) &&
      decide (10 * (m1.toNat - 48) + (m2.toNat - 48) < 60)
  | _ => false

theorem pad2_hhmm : ∀ h : Nat, h < 24 → ∀ mi : Nat, mi < 60 →
    isHHMM (pad2 h ++ ":" ++ pad2 mi) = true := by decide

/-- `LocalTimeBot.format_local_time_message`: starting from
`MESSAGE_HEADER`, append one `MESSAGE_FORMAT` line per team member in
list order; an uncaught exception from `get_local_time` propagates
(`none`).  Logs from the per-member calls accumulate in order. -/
def format_local_time_message (db : String → Option Int) (now : Int) :
    List TeamMember → Option (String × List String)
  | [] => some (MESSAGE_HEADER, [])
  | m :: rest =>
    match m.get_local_time db now with
    | none => none
    | some (t, lg) =>
      match format_local_time_message db now rest with
      | none => none
      | some (restStr, restLg) =>
        some (MESSAGE_FORMAT m.name.pyStr m.city.pyStr t ++ restStr,
          lg ++ restLg)

/-- Outcome of one `message.reply(...)` call on the transport. -/
inductive SendOutcome where
  | sent : SendOutcome
  | failed : SendOutcome
deriving DecidableEq

/-- `LocalTimeBot._send_reply`: try to send `content`; on any exception
log it and send `ERROR_MESSAGE` instead.  The fallback send is outside
the `try`, so its failure propagates (`none`).  Returns the text the
user actually received and the logs emitted. -/
def send_reply (content : String) (first fallback : SendOutcome) :
    Option (String × List String) :=
  match first with
  | .sent => some (content, [])
  | .failed =>
    match fallback with
    | .sent => some (ERROR_MESSAGE, ["Error sending message"])
    | .failed => none

/-- State of `team_members.json` as seen by one `load_team_members`
call: the file may be absent (`os.path.exists` false), present but
failing to open or parse (`present none`), or present with a parsed
JSON value (`present (some j)`). -/
inductive FileState where
  | absent : FileState
  | present : Option Json → FileState

/-- The hardcoded default roster from `load_team_members`. -/
def defaultMembers : List TeamMember :=
  [⟨.str "mayer", .str "Иркутск", .str "Asia/Irkutsk"⟩,
   ⟨.str "Antonio_Margaretti", .str "Златоуст", .str "Asia/Yekaterinburg"⟩,
   ⟨.str "Deadhoko", .str "Волгоград", .str "Europe/Volgograd"⟩,
   ⟨.str "Чайковский", .str "Москва", .str "Europe/Moscow"⟩,
   ⟨.str "seregatipich", .str "Испания", .str "Europe/Madrid"⟩]

/-- One element of the comprehension:
`TeamMember(m["name"], m["city"], m["timezone"])`.  Subscripting a
non-dict raises `TypeError`, a missing key raises `KeyError`
(both `none`). -/
def buildMember : Json → Option TeamMember
  | .obj kvs =>
    match lookupKey "name" kvs with
    | none => none
    | some n =>
      match lookupKey "city" kvs with
      | none => none
      | some c =>
        match lookupKey "timezone" kvs with
        | none => none
        | some t => some ⟨n, c, t⟩
  | _ => none

/-- The list comprehension over `members_data`, left to right; the
first raising element aborts the whole comprehension. -/
def buildAll : List Json → Option (List TeamMember)
  | [] => some []
  | j :: rest =>
    match buildMember j with
    | none => none
    | some m =>
      match buildAll rest with
      | none => none
      | some ms => some (m :: ms)

/-- `load_team_members`: if the file exists, read and parse it and build
a member per record; any exception in that block is caught and logged,
falling through to the default roster (also used when the file is
absent).  Returns the roster and the logs emitted. -/
def load_team_members (fs : FileState) : List TeamMember × List String :=
  match fs with
  | .absent =>
    (defaultMembers, ["Using default team members configuration"])
  | .present none =>
    (defaultMembers,
     ["Error loading team members from file",
      "Using default team members configuration"])
  | .present (some j) =>
    match pyIter j with
    | none =>
      (defaultMembers,
       ["Error loading team members from file",
        "Using default team members configuration"])
    | some items =>
      match buildAll items with
      | none =>
        (defaultMembers,
         ["Error loading team members from file",
          "Using default team members configuration"])
      | some ms => (ms, [])

/-- Observable startup steps of `main`, in program order. -/
inductive Event where
  | loadDotenv : Event
  | logError : String → Event
  | exitProcess : Nat → Event
  | loadRoster : Event
  | registerHandlers : Event
  | startPolling : Event
deriving DecidableEq

/-- `os.getenv(BotConfig.ENV_BOT_TOKEN)` yields `none` when the
variable is unset; `if not bot_token` is also true for the empty
string. -/
def tokenMissing : Option String → Bool
  | none => true
  | some s => s = ""

/-- `main`: load dotenv, read the token; if it is falsy, log and
`exit(1)`; otherwise load the roster, construct `LocalTimeBot` (which
registers the handlers) and start polling.  (Named `Bot.main` because
Lean reserves the top-level name `main` for executables.) -/
def Bot.main (token : Option String) : List Event :=
  Event.loadDotenv ::
    (if tokenMissing token then
      [Event.logError
        "BOT_TOKEN is missing! Please add it to your .env file",
       Event.exitProcess 1]
    else
      [Event.loadRoster, Event.registerHandlers, Event.startPolling])

/-- The time string `get_local_time` hands back when it returns
normally (used only to state properties; `""` on the exception path,
which the statements rule out by hypothesis). -/
def resolveStr (db : String → Option Int) (now : Int) (m : TeamMember) :
    String :=
  match m.get_local_time db now with
  | some (t, _) => t
  | none => ""

/-- Spec-side description of the formatted reply: the concatenation, in
roster order, of one `MESSAGE_FORMAT` line per member, rendering each
member's resolved local time. -/
def joinedLines (db : String → Option Int) (now : Int) :
    List TeamMember → String
  | [] => ""
  | m :: rest =>
    MESSAGE_FORMAT m.name.pyStr m.city.pyStr (resolveStr db now m) ++
      joinedLines db now rest

/-- Every member of the roster has a string in its timezone field. -/
def allStrTz (roster : List TeamMember) : Prop :=
  ∀ m ∈ roster, ∃ s, m.timezone = Json.str s

theorem get_local_time_some_of_str (db : String → Option Int) (now : Int)
    (m : TeamMember) (s : String) (hs : m.timezone = Json.str s) :
    ∃ lg, m.get_local_time db now = some (resolveStr db now m, lg) := by
  rcases hdb : db s with _ | off <;>
    simp [TeamMember.get_local_time, resolveStr, hs, hdb]

theorem format_eq_join (db : String → Option Int) (now : Int)
    (roster : List TeamMember) (h : allStrTz roster) :
    ∃ logs, format_local_time_message db now roster
      = some (joinedLines db now roster, logs) := by
  induction roster with
  | nil => exact ⟨[], rfl⟩
  | cons m rest ih =>
    obtain ⟨s, hs⟩ := h m (List.mem_cons_self m rest)
    obtain ⟨lg, hlg⟩ := get_local_time_some_of_str db now m s hs
    obtain ⟨logs, hrest⟩ := ih fun x hx => h x (List.mem_cons_of_mem m hx)
    exact ⟨lg ++ logs, by
      simp only [format_local_time_message, hlg, hrest, joinedLines]⟩

theorem format_city_irrelevant (db : String → Option Int) (now : Int)
    (roster : List TeamMember) (g : Json → Json) :
    format_local_time_message db now
        (roster.map fun m => ⟨m.name, g m.city, m.timezone⟩)
      = format_local_time_message db now roster := by
  induction roster with
  | nil => rfl
  | cons m rest ih =>
    simp only [List.map_cons, format_local_time_message,
      TeamMember.get_local_time, MESSAGE_FORMAT, ih]

theorem joinedLines_append (db : String → Option Int) (now : Int)
    (r₁ r₂ : List TeamMember) :
    joinedLines db now (r₁ ++ r₂)
      = joinedLines db now r₁ ++ joinedLines db now r₂ := by
  induction r₁ with
  | nil => simp [joinedLines]
  | cons m rest ih => simp [joinedLines, ih, String.append_assoc]

theorem buildAll_none_of_mem (items : List Json) (j : Json)
    (hj : j ∈ items) (hbad : buildMember j = none) :
    buildAll items = none := by
  induction items with
  | nil => cases hj
  | cons x rest ih =>
    rcases List.mem_cons.mp hj with h | h
    · subst h
      simp [buildAll, hbad]
    · unfold buildAll
      rcases buildMember x with _ | m
      · rfl
      · simp [ih h]

theorem buildMember_obj (kvs : List (String × Json)) (n c t : Json)
    (hn : lookupKey "name" kvs = some n)
    (hc : lookupKey "city" kvs = some c)
    (ht : lookupKey "timezone" kvs = some t) :
    buildMember (Json.obj kvs) = some ⟨n, c, t⟩ := by
  simp [buildMember, hn, hc, ht]

theorem buildAll_map_obj (recs : List (List (String × Json)))
    (h : ∀ kvs ∈ recs, (lookupKey "name" kvs).isSome ∧
      (lookupKey "city" kvs).isSome ∧ (lookupKey "timezone" kvs).isSome) :
    buildAll (recs.map Json.obj) = some (recs.map fun kvs =>
      ⟨(lookupKey "name" kvs).getD Json.null,
       (lookupKey "city" kvs).getD Json.null,
       (lookupKey "timezone" kvs).getD Json.null⟩) := by
  induction recs with
  | nil => rfl
  | cons kvs rest ih =>
    obtain ⟨hn, hc, ht⟩ := h kvs (List.mem_cons_self kvs rest)
    obtain ⟨n, hn⟩ := Option.isSome_iff_exists.mp hn
    obtain ⟨c, hc⟩ := Option.isSome_iff_exists.mp hc
    obtain ⟨t, ht⟩ := Option.isSome_iff_exists.mp ht
    have hrest := ih fun x hx => h x (List.mem_cons_of_mem kvs hx)
    simp [buildAll, buildMember_obj kvs n c t hn hc ht, hrest, hn, hc, ht]

/-- C1: for every string that is not a recognized timezone identifier,
`get_local_time` returns exactly `"Unknown timezone"` without raising
(the result is `some`), emits a log record naming the offending
identifier, and this recovery is local: in a roster containing the bad
entry, the reply still renders every other entry normally, with the
bad entry contributing only its fallback line. -/
theorem resolve_unknown_timezone_fallback (db : String → Option Int)
    (now : Int) (name city : Json) (s : String) (hdb : db s = none)
    (r₁ r₂ : List TeamMember) (h₁ : allStrTz r₁) (h₂ : allStrTz r₂) :
    TeamMember.get_local_time ⟨name, city, Json.str s⟩ db now
      = some ("Unknown timezone", ["Unknown timezone: " ++ s]) ∧
    ∃ logs, format_local_time_message db now
        (r₁ ++ ⟨name, city, Json.str s⟩ :: r₂)
      = some (joinedLines db now r₁ ++
          (name.pyStr ++ ": " ++ "Unknown timezone" ++ "\n") ++
          joinedLines db now r₂, logs) := by
  have hres : TeamMember.get_local_time ⟨name, city, Json.str s⟩ db now
      = some ("Unknown timezone", ["Unknown timezone: " ++ s]) := by
    simp [TeamMember.get_local_time, hdb]
  refine ⟨hres, ?_⟩
  have hall : allStrTz (r₁ ++ ⟨name, city, Json.str s⟩ :: r₂) := by
    intro m hm
    rcases List.mem_append.mp hm with h | h
    · exact h₁ m h
    · rcases List.mem_cons.mp h with h | h
      · exact ⟨s, by rw [h]⟩
      · exact h₂ m h
  obtain ⟨logs, hfmt⟩ := format_eq_join db now _ hall
  refine ⟨logs, ?_⟩
  rw [hfmt, joinedLines_append]
  have hmid : joinedLines db now (⟨name, city, Json.str s⟩ :: r₂)
      = (name.pyStr ++ ": " ++ "Unknown timezone" ++ "\n") ++
        joinedLines db now r₂ := by
    simp [joinedLines, MESSAGE_FORMAT, resolveStr,
      TeamMember.get_local_time, hdb]
  rw [hmid]
  simp [String.append_assoc]

/-- Closed instance of C1: the unrecognized identifier `"Not/AZone"`
in a one-member roster yields the fallback string, the diagnostic log
and the fallback reply line. -/
theorem resolve_unknown_timezone_fallback_witness :
    TeamMember.get_local_time
        ⟨Json.str "A", Json.str "X", Json.str "Not/AZone"⟩
        (fun _ => none) 0
      = some ("Unknown timezone", ["Unknown timezone: " ++ "Not/AZone"]) ∧
    ∃ logs, format_local_time_message (fun _ => none) 0
        ([] ++ ⟨Json.str "A", Json.str "X", Json.str "Not/AZone"⟩ :: [])
      = some (joinedLines (fun _ => none) 0 [] ++
          ((Json.str "A").pyStr ++ ": " ++ "Unknown timezone" ++ "\n") ++
          joinedLines (fun _ => none) 0 [], logs) :=
  resolve_unknown_timezone_fallback (fun _ => none) 0
    (Json.str "A") (Json.str "X") "Not/AZone" rfl [] []
    (fun _ hm => absurd hm (List.not_mem_nil _))
    (fun _ hm => absurd hm (List.not_mem_nil _))

/-- C2: for every timezone identifier the database recognizes,
`get_local_time` returns (without raising and without logging) a
zero-padded 24-hour `HH:MM` string with hour in [00,23] and minute in
[00,59]. -/
theorem resolve_valid_timezone_hhmm (db : String → Option Int)
    (now : Int) (m : TeamMember) (s : String) (off : Int)
    (hs : m.timezone = Json.str s) (hdb : db s = some off) :
    ∃ t, m.get_local_time db now = some (t, []) ∧ isHHMM t = true := by
  refine ⟨strftimeHM now off, ?_, ?_⟩
  · simp [TeamMember.get_local_time, hs, hdb]
  · have h0 : 0 ≤ (now + off) % 1440 :=
      Int.emod_nonneg _ (by norm_num)
    have h1 : (now + off) % 1440 < 1440 :=
      Int.emod_lt_of_pos _ (by norm_num)
    have h2 : ((now + off) % 1440).toNat < 1440 := by omega
    have hh : ((now + off) % 1440).toNat / 60 < 24 := by omega
    have hm : ((now + off) % 1440).toNat % 60 < 60 := by omega
    exact pad2_hhmm _ hh _ hm

/-- Closed instance of C2: at 12:34 UTC, the zone `"UTC"` (offset 0)
resolves to a well-formed `HH:MM` string. -/
theorem resolve_valid_timezone_hhmm_witness :
    ∃ t, TeamMember.get_local_time
        ⟨Json.str "A", Json.str "X", Json.str "UTC"⟩
        (fun s => if s = "UTC" then some 0 else none) 754
      = some (t, []) ∧ isHHMM t = true :=
  resolve_valid_timezone_hhmm
    (fun s => if s = "UTC" then some 0 else none) 754
    ⟨Json.str "A", Json.str "X", Json.str "UTC"⟩ "UTC" 0 rfl rfl

/-- Counterexample to C3 as stated: a configuration file that
successfully parses as the empty JSON array makes `load_team_members`
return the empty roster, so the roster is not "never empty" over every
configuration-file state. -/
theorem roster_empty_on_parsed_empty_list :
    (load_team_members (FileState.present (some (Json.arr [])))).1
      = [] := rfl

/-- C3 amended: whenever loading fails or the file is absent — the file
is missing, unreadable/unparseable, or parsed but record extraction
raises — the full 5-entry default roster is substituted, never a
partial merge; a successfully parsed file, however, may yield an empty
roster. -/
theorem load_failure_substitutes_full_defaults (fs : FileState)
    (h : fs = FileState.absent ∨ fs = FileState.present none ∨
      ∃ j, fs = FileState.present (some j) ∧ (pyIter j = none ∨
        ∃ items, pyIter j = some items ∧ buildAll items = none)) :
    (load_team_members fs).1 = defaultMembers ∧
      defaultMembers.length = 5 := by
  refine ⟨?_, rfl⟩
  rcases h with h | h | ⟨j, hj, h⟩
  · rw [h]; rfl
  · rw [h]; rfl
  · subst hj
    rcases h with h | ⟨items, hit, hb⟩
    · simp [load_team_members, h]
    · simp [load_team_members, hit, hb]

/-- Closed instance of the amended C3 at the absent-file state. -/
theorem load_failure_substitutes_full_defaults_witness :
    (load_team_members FileState.absent).1 = defaultMembers ∧
      defaultMembers.length = 5 :=
  load_failure_substitutes_full_defaults FileState.absent (Or.inl rfl)

/-- C4: if the file parses as a list but some record in it fails to
build (for example an object missing the `"name"` key), the whole
comprehension raises, the exception is caught, and the complete default
roster is returned — well-formed records elsewhere in the list are
discarded along with the malformed one, never partially kept. -/
theorem malformed_record_full_fallback (items : List Json) (j : Json)
    (hj : j ∈ items) (hbad : buildMember j = none) :
    load_team_members (FileState.present (some (Json.arr items)))
      = (defaultMembers,
         ["Error loading team members from file",
          "Using default team members configuration"]) := by
  simp [load_team_members, pyIter, buildAll_none_of_mem items j hj hbad]

/-- Closed instance of C4: a file with one well-formed record followed
by a record missing `"name"` falls back to the full default roster. -/
theorem malformed_record_full_fallback_witness :
    load_team_members (FileState.present (some (Json.arr
      [Json.obj [("name", Json.str "A"), ("city", Json.str "X"),
        ("timezone", Json.str "UTC")],
       Json.obj [("city", Json.str "Y"),
        ("timezone", Json.str "UTC")]])))
      = (defaultMembers,
         ["Error loading team members from file",
          "Using default team members configuration"]) :=
  malformed_record_full_fallback _
    (Json.obj [("city", Json.str "Y"), ("timezone", Json.str "UTC")])
    (List.mem_cons_of_mem _ (List.mem_cons_self _ _)) rfl

/-- C5: on a missing configuration file, `load_team_members` returns
exactly the five hardcoded members, in order, with their documented
name, location and timezone triples (and logs that defaults are in
use). -/
theorem absent_file_default_roster :
    load_team_members FileState.absent
      = ([⟨Json.str "mayer", Json.str "Иркутск",
            Json.str "Asia/Irkutsk"⟩,
          ⟨Json.str "Antonio_Margaretti", Json.str "Златоуст",
            Json.str "Asia/Yekaterinburg"⟩,
          ⟨Json.str "Deadhoko", Json.str "Волгоград",
            Json.str "Europe/Volgograd"⟩,
          ⟨Json.str "Чайковский", Json.str "Москва",
            Json.str "Europe/Moscow"⟩,
          ⟨Json.str "seregatipich", Json.str "Испания",
            Json.str "Europe/Madrid"⟩],
         ["Using default team members configuration"]) := rfl

/-- C6: for every roster whose timezone fields are strings, the
formatted reply is exactly the concatenation, in roster order, of one
`"{name}: {local_time}\n"` line per member rendering that member's
resolved local time; the empty roster yields the empty string rather
than an error, and the reply is unchanged under arbitrary rewriting of
every location label, which is therefore never rendered. -/
theorem format_concats_roster_lines (db : String → Option Int)
    (now : Int) (roster : List TeamMember) (h : allStrTz roster) :
    (∃ logs, format_local_time_message db now roster
      = some (joinedLines db now roster, logs)) ∧
    format_local_time_message db now [] = some ("", []) ∧
    (∀ g : Json → Json, format_local_time_message db now
        (roster.map fun m => ⟨m.name, g m.city, m.timezone⟩)
      = format_local_time_message db now roster) :=
  ⟨format_eq_join db now roster h, rfl,
   fun g => format_city_irrelevant db now roster g⟩

/-- Closed instance of C6: a one-member roster on zone `"UTC"` at
12:34 UTC formats to the single line built from that member. -/
theorem format_concats_roster_lines_witness :
    (∃ logs, format_local_time_message
        (fun s => if s = "UTC" then some 0 else none) 754
        [⟨Json.str "A", Json.str "X", Json.str "UTC"⟩]
      = some (joinedLines
          (fun s => if s = "UTC" then some 0 else none) 754
          [⟨Json.str "A", Json.str "X", Json.str "UTC"⟩], logs)) ∧
    format_local_time_message
        (fun s => if s = "UTC" then some 0 else none) 754 []
      = some ("", []) ∧
    (∀ g : Json → Json, format_local_time_message
        (fun s => if s = "UTC" then some 0 else none) 754
        (([⟨Json.str "A", Json.str "X", Json.str "UTC"⟩] :
            List TeamMember).map fun m => ⟨m.name, g m.city, m.timezone⟩)
      = format_local_time_message
          (fun s => if s = "UTC" then some 0 else none) 754
          [⟨Json.str "A", Json.str "X", Json.str "UTC"⟩]) :=
  format_concats_roster_lines
    (fun s => if s = "UTC" then some 0 else none) 754
    [⟨Json.str "A", Json.str "X", Json.str "UTC"⟩]
    (fun m hm => by
      rcases List.mem_cons.mp hm with h | h
      · exact ⟨"UTC", by rw [h]⟩
      · cases h)

/-- Counterexample to C7 as stated: when the transport rejects both the
primary reply and the substituted error reply, the second exception is
raised outside the `try` block and propagates out of `_send_reply` —
no generic error reply is delivered. -/
theorem send_reply_double_failure_raises :
    send_reply "msg" SendOutcome.failed SendOutcome.failed = none := rfl

/-- C7 amended: a transport-level failure of the primary send is caught
per-reply, logged, and substituted with the generic error reply; only
if sending the error reply itself also fails does an exception
propagate out of the send path. -/
theorem send_reply_recovery (c : String) :
    (∀ fb, send_reply c SendOutcome.sent fb = some (c, [])) ∧
    send_reply c SendOutcome.failed SendOutcome.sent
      = some (ERROR_MESSAGE, ["Error sending message"]) ∧
    send_reply c SendOutcome.failed SendOutcome.failed = none :=
  ⟨fun _ => rfl, rfl, rfl⟩

/-- C8: roster loading is deterministic in the file state — the loader
is a function of the file state alone, with no other mutable input, so
two invocations on equal file states yield equal rosters and logs. -/
theorem load_deterministic (fs₁ fs₂ : FileState) (h : fs₁ = fs₂) :
    load_team_members fs₁ = load_team_members fs₂ := by rw [h]

/-- Closed instance of C8 at the absent-file state. -/
theorem load_deterministic_witness :
    load_team_members FileState.absent
      = load_team_members FileState.absent :=
  load_deterministic FileState.absent FileState.absent rfl

/-- C9: when the `BOT_TOKEN` environment variable is unset or empty,
`main` logs a diagnostic and exits with status 1 (nonzero), and its
trace contains neither a roster load nor a handler registration — the
check precedes both. -/
theorem missing_token_fatal_exit (token : Option String)
    (h : tokenMissing token = true) :
    Bot.main token = [Event.loadDotenv,
      Event.logError
        "BOT_TOKEN is missing! Please add it to your .env file",
      Event.exitProcess 1] ∧
    (∃ c, c ≠ 0 ∧ Event.exitProcess c ∈ Bot.main token) ∧
    Event.loadRoster ∉ Bot.main token ∧
    Event.registerHandlers ∉ Bot.main token := by
  have htr : Bot.main token = [Event.loadDotenv,
      Event.logError
        "BOT_TOKEN is missing! Please add it to your .env file",
      Event.exitProcess 1] := by
    simp [Bot.main, h]
  refine ⟨htr, ⟨1, one_ne_zero, ?_⟩, ?_, ?_⟩ <;> rw [htr] <;> decide

/-- Closed instance of C9 at the empty-string token. -/
theorem missing_token_fatal_exit_witness :
    Bot.main (some "") = [Event.loadDotenv,
      Event.logError
        "BOT_TOKEN is missing! Please add it to your .env file",
      Event.exitProcess 1] ∧
    (∃ c, c ≠ 0 ∧ Event.exitProcess c ∈ Bot.main (some "")) ∧
    Event.loadRoster ∉ Bot.main (some "") ∧
    Event.registerHandlers ∉ Bot.main (some "") :=
  missing_token_fatal_exit (some "") rfl

/-- C10: loading performs no type validation on field values — a file
parsing as a list of objects that each contain the keys `"name"`,
`"city"` and `"timezone"` loads successfully, and the members carry
exactly the looked-up JSON values, whatever their types. -/
theorem load_no_type_validation (recs : List (List (String × Json)))
    (h : ∀ kvs ∈ recs, (lookupKey "name" kvs).isSome ∧
      (lookupKey "city" kvs).isSome ∧
      (lookupKey "timezone" kvs).isSome) :
    load_team_members (FileState.present (some (Json.arr
        (recs.map Json.obj))))
      = (recs.map fun kvs =>
          ⟨(lookupKey "name" kvs).getD Json.null,
           (lookupKey "city" kvs).getD Json.null,
           (lookupKey "timezone" kvs).getD Json.null⟩, []) := by
  simp [load_team_members, pyIter, buildAll_map_obj recs h]

/-- Closed instance of C10: a record whose values are a number, `null`
and a boolean is loaded as-is, with no fallback to the defaults. -/
theorem load_no_type_validation_witness :
    load_team_members (FileState.present (some (Json.arr
        (([[("name", Json.num 1), ("city", Json.null),
            ("timezone", Json.bool true)]] :
          List (List (String × Json))).map Json.obj))))
      = (([[("name", Json.num 1), ("city", Json.null),
            ("timezone", Json.bool true)]] :
          List (List (String × Json))).map fun kvs =>
          ⟨(lookupKey "name" kvs).getD Json.null,
           (lookupKey "city" kvs).getD Json.null,
           (lookupKey "timezone" kvs).getD Json.null⟩, []) :=
  load_no_type_validation
    [[("name", Json.num 1), ("city", Json.null),
      ("timezone", Json.bool true)]]
    (fun kvs hk => by
      rcases List.mem_cons.mp hk with h | h
      · subst h
        exact ⟨rfl, rfl, rfl⟩
      · cases h)
